import Mathlib

/-!
Verification of the Web Theremin offline analysis scripts.

The definitions below are shallow embeddings of the Python sources
gesture_sync_analyzer.py, midi_to_csv_converter.py, analyze-trace.py and
plot_midi_timeline.py.  Python floats are modelled as rationals, numpy
arrays as lists of rationals.
-/

namespace WebTheremin

/-- Index of the first minimum of a nonempty list of rationals, as computed
by np.argmin in gesture_sync_analyzer.py line 34: on ties the lowest index
wins.  On the empty list it returns 0 (numpy would raise, but the caller
guards against empty inputs). -/
def argminList : List ℚ → ℕ
  | [] => 0
  | [_] => 0
  | x :: y :: ys =>
    if x ≤ (y :: ys).getD (argminList (y :: ys)) 0 then 0
    else argminList (y :: ys) + 1

/-- Shallow embedding of calculate_deviations, gesture_sync_analyzer.py
lines 17-39: empty guard on either input, then for each note time the
nearest reference time is located with np.argmin over the absolute
differences and the signed difference is scaled to milliseconds. -/
def calculate_deviations (note_times reference_times : List ℚ) : List ℚ :=
  if note_times.length = 0 ∨ reference_times.length = 0 then []
  else
    note_times.map (fun note_time =>
      (note_time -
        reference_times.getD
          (argminList (reference_times.map (fun r => |r - note_time|))) 0)
        * 1000)

theorem argminList_lt_length (l : List ℚ) (h : l ≠ []) :
    argminList l < l.length := by
  induction l with
  | nil => exact absurd rfl h
  | cons x xs ih =>
    cases xs with
    | nil => simp [argminList]
    | cons y ys =>
      simp only [argminList]
      split
      · simp
      · have := ih (List.cons_ne_nil y ys)
        simpa using Nat.succ_lt_succ this

theorem argminList_min (l : List ℚ) (k : ℕ) (hk : k < l.length) :
    l.getD (argminList l) 0 ≤ l.getD k 0 := by
  induction l generalizing k with
  | nil => simp at hk
  | cons x xs ih =>
    cases xs with
    | nil =>
      cases k with
      | zero => simp [argminList]
      | succ k => simp at hk
    | cons y ys =>
      simp only [argminList]
      split
      · rename_i hle
        cases k with
        | zero => simp
        | succ k =>
          have hk2 : k < (y :: ys).length := by simpa using hk
          have := ih k hk2
          simp only [List.getD_cons_zero, List.getD_cons_succ]
          exact le_trans hle this
      · rename_i hgt
        push_neg at hgt
        cases k with
        | zero =>
          simp only [List.getD_cons_zero, List.getD_cons_succ]
          exact le_of_lt hgt
        | succ k =>
          have hk2 : k < (y :: ys).length := by simpa using hk
          have := ih k hk2
          simpa using this

theorem argminList_first (l : List ℚ) (k : ℕ) (hk : k < argminList l) :
    l.getD (argminList l) 0 < l.getD k 0 := by
  induction l generalizing k with
  | nil => simp [argminList] at hk
  | cons x xs ih =>
    cases xs with
    | nil => simp [argminList] at hk
    | cons y ys =>
      simp only [argminList] at hk ⊢
      split
      · rename_i hle
        rw [if_pos hle] at hk
        exact absurd hk (Nat.not_lt_zero k)
      · rename_i hgt
        push_neg at hgt
        rw [if_neg (not_le.mpr hgt)] at hk
        cases k with
        | zero =>
          simpa using hgt
        | succ k =>
          have hk2 : k < argminList (y :: ys) := Nat.lt_of_succ_lt_succ hk
          have := ih k hk2
          simpa using this

theorem listGetDMap (f : ℚ → ℚ) (l : List ℚ) (i : ℕ) (hi : i < l.length) :
    (l.map f).getD i 0 = f (l.getD i 0) := by
  induction l generalizing i with
  | nil => simp at hi
  | cons x xs ih =>
    cases i with
    | zero => simp
    | succ i =>
      have hi2 : i < xs.length := by simpa using hi
      simpa using ih i hi2

/-- Claim C1: for every non-empty source onset sequence and non-empty
reference onset sequence, calculate_deviations returns one value per source
onset, in source order, where the i-th value equals
(source[i] - reference[j]) * 1000 for an index j minimizing
|reference[j] - source[i]| over the entire reference sequence; in
particular for reference [1.0, 2.0, 3.0] and source onset 1.4 the result
is 400.0 ms. -/
theorem c1_nearest_neighbor_deviation (src ref : List ℚ)
    (hs : src ≠ []) (hr : ref ≠ []) :
    ((calculate_deviations src ref).length = src.length ∧
      ∀ i, i < src.length → ∃ j, j < ref.length ∧
        (∀ k, k < ref.length →
          |ref.getD j 0 - src.getD i 0| ≤ |ref.getD k 0 - src.getD i 0|) ∧
        (calculate_deviations src ref).getD i 0
          = (src.getD i 0 - ref.getD j 0) * 1000) ∧
    calculate_deviations [7/5] [1, 2, 3] = [400] := by
  have hsn : src.length ≠ 0 := by simpa [List.length_eq_zero] using hs
  have hrn : ref.length ≠ 0 := by simpa [List.length_eq_zero] using hr
  have hguard : ¬(src.length = 0 ∨ ref.length = 0) := by tauto
  refine ⟨⟨?_, ?_⟩, ?_⟩
  · simp [calculate_deviations, hs, hr]
  · intro i hi
    have hmne : (ref.map (fun r => |r - src.getD i 0|)) ≠ [] := by
      simpa using hr
    have hjlt : argminList (ref.map (fun r => |r - src.getD i 0|))
        < ref.length := by
      have := argminList_lt_length _ hmne
      simpa using this
    refine ⟨argminList (ref.map (fun r => |r - src.getD i 0|)), hjlt, ?_, ?_⟩
    · intro k hk
      have h1 := argminList_min (ref.map (fun r => |r - src.getD i 0|)) k
        (by simpa using hk)
      rwa [listGetDMap _ ref _ hjlt, listGetDMap _ ref _ hk] at h1
    · have hcd : calculate_deviations src ref = src.map (fun note_time =>
          (note_time - ref.getD
            (argminList (ref.map (fun r => |r - note_time|))) 0) * 1000) := by
        simp [calculate_deviations, hs, hr]
      rw [hcd, listGetDMap _ src _ hi]
  · norm_num [calculate_deviations, argminList, abs]

/-- Claim C2: for every source onset exactly equidistant from two or more
reference onsets, calculate_deviations picks the reference onset with the
lowest index, deterministically: the chosen index j minimizes the absolute
difference and every strictly smaller index has a strictly larger absolute
difference.  In particular for reference [1.0, 3.0] and source onset 2.0
the deviation is 1000.0 ms. -/
theorem c2_tie_break_lowest_index (src ref : List ℚ) (i : ℕ)
    (hi : i < src.length) (hr : ref ≠ []) :
    (∃ j, j < ref.length ∧
      (calculate_deviations src ref).getD i 0
        = (src.getD i 0 - ref.getD j 0) * 1000 ∧
      (∀ k, k < ref.length →
        |ref.getD j 0 - src.getD i 0| ≤ |ref.getD k 0 - src.getD i 0|) ∧
      (∀ k, k < j →
        |ref.getD j 0 - src.getD i 0| < |ref.getD k 0 - src.getD i 0|)) ∧
    calculate_deviations [2] [1, 3] = [1000] := by
  have hsn : src.length ≠ 0 := (Nat.lt_of_le_of_lt (Nat.zero_le i) hi).ne'
  have hs : src ≠ [] := fun e => hsn (by simp [e])
  have hrn : ref.length ≠ 0 := by simpa [List.length_eq_zero] using hr
  have hguard : ¬(src.length = 0 ∨ ref.length = 0) := by tauto
  constructor
  · have hmne : (ref.map (fun r => |r - src.getD i 0|)) ≠ [] := by
      simpa using hr
    have hjlt : argminList (ref.map (fun r => |r - src.getD i 0|))
        < ref.length := by
      have := argminList_lt_length _ hmne
      simpa using this
    refine ⟨argminList (ref.map (fun r => |r - src.getD i 0|)), hjlt, ?_, ?_, ?_⟩
    · have hcd : calculate_deviations src ref = src.map (fun note_time =>
          (note_time - ref.getD
            (argminList (ref.map (fun r => |r - note_time|))) 0) * 1000) := by
        simp [calculate_deviations, hs, hr]
      rw [hcd, listGetDMap _ src _ hi]
    · intro k hk
      have h1 := argminList_min (ref.map (fun r => |r - src.getD i 0|)) k
        (by simpa using hk)
      rwa [listGetDMap _ ref _ hjlt, listGetDMap _ ref _ hk] at h1
    · intro k hk
      have hklt : k < ref.length := lt_trans hk hjlt
      have h1 := argminList_first (ref.map (fun r => |r - src.getD i 0|)) k hk
      rwa [listGetDMap _ ref _ hjlt, listGetDMap _ ref _ hklt] at h1
  · norm_num [calculate_deviations, argminList, abs]

/-- Witness for claim C1 at the spec's example: reference onsets
[1.0, 2.0, 3.0] and the single source onset 1.4 give the deviation
400.0 ms. -/
theorem c1_nearest_neighbor_deviation_witness :
    (([7/5] : List ℚ) ≠ [] ∧ ([1, 2, 3] : List ℚ) ≠ []) ∧
    (((calculate_deviations [7/5] [1, 2, 3]).length
        = ([7/5] : List ℚ).length ∧
      ∀ i, i < ([7/5] : List ℚ).length → ∃ j, j < ([1, 2, 3] : List ℚ).length ∧
        (∀ k, k < ([1, 2, 3] : List ℚ).length →
          |([1, 2, 3] : List ℚ).getD j 0 - ([7/5] : List ℚ).getD i 0|
            ≤ |([1, 2, 3] : List ℚ).getD k 0 - ([7/5] : List ℚ).getD i 0|) ∧
        (calculate_deviations [7/5] [1, 2, 3]).getD i 0
          = (([7/5] : List ℚ).getD i 0 - ([1, 2, 3] : List ℚ).getD j 0) * 1000) ∧
    calculate_deviations [7/5] [1, 2, 3] = [400]) :=
  ⟨⟨by simp, by simp⟩,
   c1_nearest_neighbor_deviation [7/5] [1, 2, 3] (by simp) (by simp)⟩

/-- Witness for claim C2 at the spec's example: reference onsets
[1.0, 3.0] and source onset 2.0 are equidistant and the lower-indexed
reference 1.0 is chosen, giving 1000.0 ms. -/
theorem c2_tie_break_lowest_index_witness :
    (0 < ([2] : List ℚ).length ∧ ([1, 3] : List ℚ) ≠ []) ∧
    ((∃ j, j < ([1, 3] : List ℚ).length ∧
      (calculate_deviations [2] [1, 3]).getD 0 0
        = (([2] : List ℚ).getD 0 0 - ([1, 3] : List ℚ).getD j 0) * 1000 ∧
      (∀ k, k < ([1, 3] : List ℚ).length →
        |([1, 3] : List ℚ).getD j 0 - ([2] : List ℚ).getD 0 0|
          ≤ |([1, 3] : List ℚ).getD k 0 - ([2] : List ℚ).getD 0 0|) ∧
      (∀ k, k < j →
        |([1, 3] : List ℚ).getD j 0 - ([2] : List ℚ).getD 0 0|
          < |([1, 3] : List ℚ).getD k 0 - ([2] : List ℚ).getD 0 0|)) ∧
    calculate_deviations [2] [1, 3] = [1000]) :=
  ⟨⟨by simp, by simp⟩,
   c2_tie_break_lowest_index [2] [1, 3] 0 (by simp) (by simp)⟩

/-- Arithmetic mean as computed by np.mean; in this rational model a mean
of the empty list is 0 (division by zero yields 0 in Lean), but all
callers guard against the empty case first. -/
def np_mean (l : List ℚ) : ℚ := l.sum / (l.length : ℚ)

/-- Population variance: np.std subtracts the mean, squares, averages with
the N (not N-1) denominator. -/
def np_var (l : List ℚ) : ℚ := np_mean (l.map (fun x => (x - np_mean l) ^ 2))

/-- Population standard deviation as computed by np.std: the square root
of the population variance. -/
noncomputable def np_std (l : List ℚ) : ℝ := Real.sqrt ((np_var l : ℚ) : ℝ)

/-- The dictionary returned by calculate_precision_metrics,
gesture_sync_analyzer.py lines 51-74. -/
structure PrecisionMetrics where
  offset_sistematico : ℚ
  precisao_real : ℝ
  desvio_absoluto_medio : ℚ
  precisao_corrigida : ℝ
  eventos_analisados : ℕ

/-- Shallow embedding of calculate_precision_metrics,
gesture_sync_analyzer.py lines 41-74: empty guard returning all zeros,
otherwise the mean, np.std, mean absolute value, np.std of the explicitly
re-centered deviations, and the count. -/
noncomputable def calculate_precision_metrics
    (deviations : List ℚ) : PrecisionMetrics :=
  if deviations.length = 0 then ⟨0, 0, 0, 0, 0⟩
  else
    ⟨np_mean deviations,
     np_std deviations,
     np_mean (deviations.map (fun d => |d|)),
     np_std (deviations.map (fun d => d - np_mean deviations)),
     deviations.length⟩

/-- Claim C3: if either onset sequence is empty the deviation calculator
returns an empty sequence, and the precision metrics of an empty deviation
set are all zero with count 0; both are total functions, so nothing is
raised. -/
theorem c3_empty_input_degenerate (src ref : List ℚ) :
    calculate_deviations src [] = [] ∧
    calculate_deviations [] ref = [] ∧
    (calculate_precision_metrics []).offset_sistematico = 0 ∧
    (calculate_precision_metrics []).precisao_real = 0 ∧
    (calculate_precision_metrics []).desvio_absoluto_medio = 0 ∧
    (calculate_precision_metrics []).precisao_corrigida = 0 ∧
    (calculate_precision_metrics []).eventos_analisados = 0 := by
  refine ⟨?_, ?_, ?_, ?_, ?_, ?_, ?_⟩ <;>
    simp [calculate_deviations, calculate_precision_metrics]

theorem list_sum_map_sub (l : List ℚ) (c : ℚ) :
    (l.map (fun x => x - c)).sum = l.sum - l.length * c := by
  induction l with
  | nil => simp
  | cons x xs ih =>
    simp only [List.map_cons, List.sum_cons, ih, List.length_cons]
    push_cast
    ring

theorem np_mean_map_sub (l : List ℚ) (c : ℚ) (h : l ≠ []) :
    np_mean (l.map (fun x => x - c)) = np_mean l - c := by
  have hn : (l.length : ℚ) ≠ 0 :=
    Nat.cast_ne_zero.mpr (by simpa [List.length_eq_zero] using h)
  simp only [np_mean, list_sum_map_sub, List.length_map]
  field_simp

theorem np_var_map_sub (l : List ℚ) (c : ℚ) :
    np_var (l.map (fun x => x - c)) = np_var l := by
  rcases eq_or_ne l [] with rfl | h
  · simp
  · simp only [np_var]
    rw [np_mean_map_sub l c h, List.map_map]
    have hfun : ((fun x => (x - (np_mean l - c)) ^ 2) ∘ (fun x => x - c))
        = (fun x : ℚ => (x - np_mean l) ^ 2) := by
      funext x
      simp only [Function.comp]
      ring
    rw [hfun]

/-- Claim C4: for every deviation sequence, the corrected precision
(population standard deviation after subtracting the mean from every
deviation) equals the real precision (population standard deviation of
the raw deviations). -/
theorem c4_corrected_precision_equals_real (devs : List ℚ) :
    (calculate_precision_metrics devs).precisao_corrigida
      = (calculate_precision_metrics devs).precisao_real := by
  rcases eq_or_ne devs.length 0 with h | h
  · simp [calculate_precision_metrics, h]
  · simp [calculate_precision_metrics, h, np_std, np_var_map_sub]

/-- Claim C5: for every non-empty deviation sequence the precision metrics
are the arithmetic mean of the signed deviations, the population standard
deviation (denominator N, not N-1), the arithmetic mean of the absolute
values, and the count of input deviations. -/
theorem c5_precision_metrics_formulas (devs : List ℚ) (h : devs ≠ []) :
    (calculate_precision_metrics devs).offset_sistematico
      = devs.sum / (devs.length : ℚ) ∧
    (calculate_precision_metrics devs).precisao_real
      = Real.sqrt
          ((((devs.map (fun d => (d - devs.sum / (devs.length : ℚ)) ^ 2)).sum
              / (devs.length : ℚ) : ℚ) : ℝ)) ∧
    (calculate_precision_metrics devs).desvio_absoluto_medio
      = (devs.map (fun d => |d|)).sum / (devs.length : ℚ) ∧
    (calculate_precision_metrics devs).eventos_analisados = devs.length := by
  have hn : devs.length ≠ 0 := by simpa [List.length_eq_zero] using h
  refine ⟨?_, ?_, ?_, ?_⟩ <;>
    simp [calculate_precision_metrics, hn, np_std, np_var, np_mean,
      List.length_map]

/-- Witness for claim C5 at the concrete deviation list [1, 3]: mean 2,
population variance 1, mean absolute deviation 2, count 2. -/
theorem c5_precision_metrics_formulas_witness :
    ([1, 3] : List ℚ) ≠ [] ∧
    ((calculate_precision_metrics [1, 3]).offset_sistematico
      = ([1, 3] : List ℚ).sum / (([1, 3] : List ℚ).length : ℚ) ∧
    (calculate_precision_metrics [1, 3]).precisao_real
      = Real.sqrt
          (((([1, 3] : List ℚ).map
                (fun d => (d - ([1, 3] : List ℚ).sum
                  / (([1, 3] : List ℚ).length : ℚ)) ^ 2)).sum
              / (([1, 3] : List ℚ).length : ℚ) : ℚ) : ℝ) ∧
    (calculate_precision_metrics [1, 3]).desvio_absoluto_medio
      = (([1, 3] : List ℚ).map (fun d => |d|)).sum
          / (([1, 3] : List ℚ).length : ℚ) ∧
    (calculate_precision_metrics [1, 3]).eventos_analisados
      = ([1, 3] : List ℚ).length) :=
  ⟨by simp, c5_precision_metrics_formulas [1, 3] (by simp)⟩

/-- MIDI message types relevant to these scripts; mido produces more kinds,
all folded into other here. -/
inductive MsgType
  | note_on
  | note_off
  | control_change
  | program_change
  | other
  deriving DecidableEq

/-- One MIDI message as the scripts see it: a relative-time delta in
seconds, a type tag, an optional channel, and the data bytes that the
scripts read only for the matching types. -/
structure MidiMsg where
  time : ℚ
  type : MsgType
  channel : Option ℕ
  note : ℕ
  velocity : ℕ
  control : ℕ
  value : ℕ
  program : ℕ
  deriving DecidableEq

/-- Configured metronome note number, gesture_sync_analyzer.py line 13. -/
def METRONOME_NOTE : ℕ := 24

/-- Configured keyboard note number, gesture_sync_analyzer.py line 14. -/
def KEYBOARD_NOTE : ℕ := 48

/-- Configured theremin note number, gesture_sync_analyzer.py line 15. -/
def THEREMIN_NOTE : ℕ := 60

/-- State of the extraction loop of analyze_synchronization,
gesture_sync_analyzer.py lines 494-508: the running absolute-time
accumulator and the three onset sequences. -/
structure ExtractState where
  absolute_time : ℚ
  metronome_times : List ℚ
  theremin_times : List ℚ
  keyboard_times : List ℚ
  deriving DecidableEq

/-- One iteration of the extraction loop, gesture_sync_analyzer.py lines
500-508: the delta is added to the accumulator first, then a note_on with
positive velocity is routed by note number. -/
def extractStep (s : ExtractState) (msg : MidiMsg) : ExtractState :=
  let t := s.absolute_time + msg.time
  if msg.type = MsgType.note_on ∧ 0 < msg.velocity then
    if msg.note = METRONOME_NOTE then
      ⟨t, s.metronome_times ++ [t], s.theremin_times, s.keyboard_times⟩
    else if msg.note = THEREMIN_NOTE then
      ⟨t, s.metronome_times, s.theremin_times ++ [t], s.keyboard_times⟩
    else if msg.note = KEYBOARD_NOTE then
      ⟨t, s.metronome_times, s.theremin_times, s.keyboard_times ++ [t]⟩
    else ⟨t, s.metronome_times, s.theremin_times, s.keyboard_times⟩
  else ⟨t, s.metronome_times, s.theremin_times, s.keyboard_times⟩

/-- The whole extraction loop starting from accumulator 0 and three empty
sequences. -/
def extractOnsets (msgs : List MidiMsg) : ExtractState :=
  msgs.foldl extractStep ⟨0, [], [], []⟩

/-- Total number of onsets recorded across the three sequences. -/
def onsetCount (s : ExtractState) : ℕ :=
  s.metronome_times.length + s.theremin_times.length
    + s.keyboard_times.length

/-- A message that the extraction loop records as an onset: note_on type,
strictly positive velocity and a note number matching one of the three
configured constants. -/
def isCountedOnset (m : MidiMsg) : Bool :=
  decide (m.type = MsgType.note_on ∧ 0 < m.velocity ∧
    (m.note = METRONOME_NOTE ∨ m.note = THEREMIN_NOTE
      ∨ m.note = KEYBOARD_NOTE))

theorem onsetCount_extractStep (s : ExtractState) (m : MidiMsg) :
    onsetCount (extractStep s m)
      = onsetCount s + (if isCountedOnset m then 1 else 0) := by
  simp only [extractStep, onsetCount, isCountedOnset, decide_eq_true_eq]
  split_ifs <;> simp_all <;> omega

theorem onsetCount_foldl (ms : List MidiMsg) (s : ExtractState) :
    onsetCount (List.foldl extractStep s ms)
      = onsetCount s + ms.countP isCountedOnset := by
  induction ms generalizing s with
  | nil => simp
  | cons m ms ih =>
    rw [List.foldl_cons, ih, onsetCount_extractStep, List.countP_cons]
    cases h : isCountedOnset m
    · simp [h]
    · simp [h]
      omega

/-- Claim C6: a message is counted as an onset only if its type is note_on
and its velocity is strictly positive; a note_on with velocity 0 leaves all
three onset sequences unchanged regardless of its note number, and the
total number of recorded onsets equals the count of qualifying messages. -/
theorem c6_velocity_zero_never_counted :
    (∀ (s : ExtractState) (m : MidiMsg), m.type = MsgType.note_on →
      m.velocity = 0 →
      (extractStep s m).metronome_times = s.metronome_times ∧
      (extractStep s m).theremin_times = s.theremin_times ∧
      (extractStep s m).keyboard_times = s.keyboard_times) ∧
    (∀ msgs : List MidiMsg,
      onsetCount (extractOnsets msgs) = msgs.countP isCountedOnset) := by
  constructor
  · intro s m hty hv
    have hno : ¬(m.type = MsgType.note_on ∧ 0 < m.velocity) := by simp [hv]
    simp [extractStep, hno]
  · intro msgs
    have h0 : onsetCount ⟨0, [], [], []⟩ = 0 := by simp [onsetCount]
    simpa [extractOnsets, h0] using
      onsetCount_foldl msgs ⟨0, [], [], []⟩

/-- Witness for claim C6: a note_on with velocity 0 on the theremin note 60
is not recorded, and a one-message stream made of it yields zero onsets. -/
theorem c6_velocity_zero_never_counted_witness :
    ((MidiMsg.mk (1/2) MsgType.note_on none 60 0 0 0 0).type
        = MsgType.note_on ∧
     (MidiMsg.mk (1/2) MsgType.note_on none 60 0 0 0 0).velocity = 0) ∧
    ((extractStep ⟨0, [], [], []⟩
        (MidiMsg.mk (1/2) MsgType.note_on none 60 0 0 0 0)).metronome_times
      = (⟨0, [], [], []⟩ : ExtractState).metronome_times ∧
     (extractStep ⟨0, [], [], []⟩
        (MidiMsg.mk (1/2) MsgType.note_on none 60 0 0 0 0)).theremin_times
      = (⟨0, [], [], []⟩ : ExtractState).theremin_times ∧
     (extractStep ⟨0, [], [], []⟩
        (MidiMsg.mk (1/2) MsgType.note_on none 60 0 0 0 0)).keyboard_times
      = (⟨0, [], [], []⟩ : ExtractState).keyboard_times) ∧
    onsetCount (extractOnsets [MidiMsg.mk (1/2) MsgType.note_on none 60 0 0 0 0])
      = [MidiMsg.mk (1/2) MsgType.note_on none 60 0 0 0 0].countP isCountedOnset :=
  ⟨⟨rfl, rfl⟩,
   c6_velocity_zero_never_counted.1 ⟨0, [], [], []⟩
     (MidiMsg.mk (1/2) MsgType.note_on none 60 0 0 0 0) rfl rfl,
   c6_velocity_zero_never_counted.2
     [MidiMsg.mk (1/2) MsgType.note_on none 60 0 0 0 0]⟩

/-- The list of accumulator values seen by the shared delta-accumulation
loop (gesture_sync_analyzer.py lines 499-501, midi_to_csv_converter.py
lines 30-32): each message's delta is added before the message is
inspected, so entry i is the accumulator at message i. -/
def absTimesAux (acc : ℚ) : List ℚ → List ℚ
  | [] => []
  | d :: ds => (acc + d) :: absTimesAux (acc + d) ds

/-- Absolute times implied by a list of relative-time deltas, starting
from accumulator 0. -/
def absoluteTimes (deltas : List ℚ) : List ℚ := absTimesAux 0 deltas

theorem absTimesAux_getD (ds : List ℚ) (acc : ℚ) (i : ℕ)
    (hi : i < ds.length) :
    (absTimesAux acc ds).getD i 0 = acc + (ds.take (i + 1)).sum := by
  induction ds generalizing acc i with
  | nil => simp at hi
  | cons d ds ih =>
    cases i with
    | zero => simp [absTimesAux]
    | succ i =>
      have hi2 : i < ds.length := by simpa using hi
      simp only [absTimesAux, List.getD_cons_succ, List.take_succ_cons,
        List.sum_cons]
      rw [ih (acc + d) i hi2]
      ring

/-- Claim C7: the absolute-time accumulator starts at 0 and each message's
delta is added before its type is tested, so the absolute time of message i
is the inclusive prefix sum of the deltas; for deltas [0.0, 0.5, 0.25] the
implied absolute times are [0.0, 0.5, 0.75]. -/
theorem c7_accumulator_prefix_sums :
    (∀ (deltas : List ℚ) (i : ℕ), i < deltas.length →
      (absoluteTimes deltas).getD i 0 = (deltas.take (i + 1)).sum) ∧
    (∀ (s : ExtractState) (m : MidiMsg),
      (extractStep s m).absolute_time = s.absolute_time + m.time) ∧
    (∀ (s : ExtractState) (m : MidiMsg), m.type = MsgType.note_on →
      0 < m.velocity → m.note = METRONOME_NOTE →
      (extractStep s m).metronome_times
        = s.metronome_times ++ [s.absolute_time + m.time]) ∧
    absoluteTimes [0, 1/2, 1/4] = [0, 1/2, 3/4] := by
  refine ⟨?_, ?_, ?_, ?_⟩
  · intro deltas i hi
    simpa using absTimesAux_getD deltas 0 i hi
  · intro s m
    simp only [extractStep]
    split_ifs <;> rfl
  · intro s m h1 h2 h3
    simp [extractStep, h1, h2, h3]
  · norm_num [absoluteTimes, absTimesAux]

/-- Witness for claim C7 at the spec's example deltas [0, 1/2, 1/4], with
index 2, and at a concrete qualifying metronome message. -/
theorem c7_accumulator_prefix_sums_witness :
    (2 < ([0, 1/2, 1/4] : List ℚ).length ∧
      (absoluteTimes [0, 1/2, 1/4]).getD 2 0
        = (([0, 1/2, 1/4] : List ℚ).take 3).sum) ∧
    ((MidiMsg.mk (1/2) MsgType.note_on none 24 100 0 0 0).type
        = MsgType.note_on ∧
     0 < (MidiMsg.mk (1/2) MsgType.note_on none 24 100 0 0 0).velocity ∧
     (MidiMsg.mk (1/2) MsgType.note_on none 24 100 0 0 0).note
        = METRONOME_NOTE) ∧
    (extractStep ⟨0, [], [], []⟩
        (MidiMsg.mk (1/2) MsgType.note_on none 24 100 0 0 0)).absolute_time
      = (⟨0, [], [], []⟩ : ExtractState).absolute_time
          + (MidiMsg.mk (1/2) MsgType.note_on none 24 100 0 0 0).time ∧
    (extractStep ⟨0, [], [], []⟩
        (MidiMsg.mk (1/2) MsgType.note_on none 24 100 0 0 0)).metronome_times
      = (⟨0, [], [], []⟩ : ExtractState).metronome_times
          ++ [(⟨0, [], [], []⟩ : ExtractState).absolute_time
            + (MidiMsg.mk (1/2) MsgType.note_on none 24 100 0 0 0).time] ∧
    absoluteTimes [0, 1/2, 1/4] = [0, 1/2, 3/4] :=
  ⟨⟨by simp, c7_accumulator_prefix_sums.1 [0, 1/2, 1/4] 2 (by simp)⟩,
   ⟨rfl, by simp, rfl⟩,
   c7_accumulator_prefix_sums.2.1 ⟨0, [], [], []⟩
     (MidiMsg.mk (1/2) MsgType.note_on none 24 100 0 0 0),
   c7_accumulator_prefix_sums.2.2.1 ⟨0, [], [], []⟩
     (MidiMsg.mk (1/2) MsgType.note_on none 24 100 0 0 0) rfl (by simp) rfl,
   c7_accumulator_prefix_sums.2.2.2⟩

/-- One CSV row written by convert_midi_to_csv, midi_to_csv_converter.py
lines 21-57: fields left as None when they do not apply to the row's
type. -/
structure CsvRow where
  timestamp_s : ℚ
  type : MsgType
  channel : Option ℕ
  note : Option ℕ
  velocity : Option ℕ
  control : Option ℕ
  value : Option ℕ
  program : Option ℕ
  deriving DecidableEq

/-- Default row used only as the out-of-range value of List.getD. -/
def defaultCsvRow : CsvRow :=
  ⟨0, MsgType.other, none, none, none, none, none, none⟩

/-- Round-half-to-even of a rational to an integer, the rounding rule of
Python's builtin round. -/
def roundHalfEven (q : ℚ) : ℤ :=
  if q - ⌊q⌋ < 1/2 then ⌊q⌋
  else if 1/2 < q - ⌊q⌋ then ⌊q⌋ + 1
  else if ⌊q⌋ % 2 = 0 then ⌊q⌋ else ⌊q⌋ + 1

/-- round(x, 6) of midi_to_csv_converter.py line 35: half-even rounding at
the sixth decimal place. -/
def round6 (q : ℚ) : ℚ := (roundHalfEven (q * 1000000) : ℚ) / 1000000

/-- The row built for one message at absolute time t,
midi_to_csv_converter.py lines 34-55. -/
def csvRow (t : ℚ) (m : MidiMsg) : CsvRow :=
  ⟨round6 t, m.type, m.channel,
   if m.type = MsgType.note_on ∨ m.type = MsgType.note_off
     then some m.note else none,
   if m.type = MsgType.note_on ∨ m.type = MsgType.note_off
     then some m.velocity else none,
   if m.type = MsgType.control_change then some m.control else none,
   if m.type = MsgType.control_change then some m.value else none,
   if m.type = MsgType.program_change then some m.program else none⟩

/-- The conversion loop of midi_to_csv_converter.py lines 30-57: each
message's delta is added to the accumulator, then its row is emitted. -/
def csvRowsAux (acc : ℚ) : List MidiMsg → List CsvRow
  | [] => []
  | m :: ms => csvRow (acc + m.time) m :: csvRowsAux (acc + m.time) ms

/-- Shallow embedding of convert_midi_to_csv restricted to the rows it
writes (the header and file I/O are presentation). -/
def convert_midi_to_csv (msgs : List MidiMsg) : List CsvRow :=
  csvRowsAux 0 msgs

theorem csvRowsAux_length (ms : List MidiMsg) (acc : ℚ) :
    (csvRowsAux acc ms).length = ms.length := by
  induction ms generalizing acc with
  | nil => simp [csvRowsAux]
  | cons m ms ih => simp [csvRowsAux, ih]

theorem csvRowsAux_timestamp (ms : List MidiMsg) (acc : ℚ) (i : ℕ)
    (hi : i < ms.length) :
    ((csvRowsAux acc ms).getD i defaultCsvRow).timestamp_s
      = round6 (acc + ((ms.map (fun m => m.time)).take (i + 1)).sum) := by
  induction ms generalizing acc i with
  | nil => simp at hi
  | cons m ms ih =>
    cases i with
    | zero => simp [csvRowsAux, csvRow]
    | succ i =>
      have hi2 : i < ms.length := by simpa using hi
      simp only [csvRowsAux, List.getD_cons_succ, List.map_cons,
        List.take_succ_cons, List.sum_cons]
      rw [ih (acc + m.time) i hi2]
      congr 1
      ring

/-- Claim C10: the timestamp_s value of every CSV row is the accumulated
absolute time rounded half-even to 6 decimal places; rounding is not the
identity, e.g. at the rational 1/3. -/
theorem c10_csv_timestamp_rounded (msgs : List MidiMsg) (i : ℕ)
    (hi : i < msgs.length) :
    ((convert_midi_to_csv msgs).length = msgs.length ∧
     ((convert_midi_to_csv msgs).getD i defaultCsvRow).timestamp_s
       = round6 (((msgs.map (fun m => m.time)).take (i + 1)).sum)) ∧
    round6 (1/3) ≠ (1/3 : ℚ) := by
  refine ⟨⟨csvRowsAux_length msgs 0, ?_⟩, ?_⟩
  · simpa using csvRowsAux_timestamp msgs 0 i hi
  · norm_num [round6, roundHalfEven]

/-- Witness for claim C10 at a single message with delta 1/2. -/
theorem c10_csv_timestamp_rounded_witness :
    0 < ([MidiMsg.mk (1/2) MsgType.note_on none 60 100 0 0 0]).length ∧
    (((convert_midi_to_csv
          [MidiMsg.mk (1/2) MsgType.note_on none 60 100 0 0 0]).length
        = ([MidiMsg.mk (1/2) MsgType.note_on none 60 100 0 0 0]).length ∧
      ((convert_midi_to_csv
          [MidiMsg.mk (1/2) MsgType.note_on none 60 100 0 0 0]).getD 0
          defaultCsvRow).timestamp_s
        = round6 ((([MidiMsg.mk (1/2) MsgType.note_on none 60 100 0 0 0]).map
            (fun m => m.time)).take 1).sum) ∧
    round6 (1/3) ≠ (1/3 : ℚ)) :=
  ⟨by simp,
   c10_csv_timestamp_rounded
     [MidiMsg.mk (1/2) MsgType.note_on none 60 100 0 0 0] 0 (by simp)⟩

/-- Python exception classes appearing in the scripts' read boundaries.
FileNotFoundError subclasses OSError; json.JSONDecodeError and the pandas
ParserError subclass ValueError; the mido parse failure is some Exception
subclass; every class subclasses Exception. -/
inductive ExcClass
  | exceptionAll
  | osError
  | fileNotFound
  | valueError
  | jsonDecodeError
  | parserError
  | midoError
  deriving DecidableEq

/-- Whether an exception of class a is caught by an except clause naming
class b: the reflexive-transitive Python subclass relation on the classes
above. -/
def subclassOf : ExcClass → ExcClass → Bool
  | _, .exceptionAll => true
  | .fileNotFound, .osError => true
  | .jsonDecodeError, .valueError => true
  | .parserError, .valueError => true
  | a, b => decide (a = b)

/-- Outcome of a script's input-reading boundary on a misused input:
either a printed user-facing message, or an exception escaping the
boundary unhandled. -/
inductive ReadOutcome
  | printedError
  | unhandled (e : ExcClass)
  deriving DecidableEq

/-- A try/except boundary whose except clause names the class clause: the
raised exception is caught and turned into a printed message iff its class
subclasses the clause. -/
def handleAt (clause raised : ExcClass) : ReadOutcome :=
  if subclassOf raised clause then .printedError else .unhandled raised

/-- The misused inputs of claim C8, one per script and failure mode:
missing input file, unparsable MIDI file, malformed JSON trace or plan,
malformed CSV. -/
inductive Misuse
  | gestureSyncMissingFile
  | gestureSyncBadMidi
  | csvConvMissingFile
  | csvConvBadMidi
  | traceMissingFile
  | traceBadJson
  | plotMissingCsv
  | plotMissingPlan
  | plotBadCsv
  | plotBadJson
  deriving DecidableEq

/-- What each script's read boundary does on each misused input.
gesture_sync_analyzer.py: os.path.exists guard (lines 479-481) and
except Exception around mido.MidiFile (lines 488-492).
midi_to_csv_converter.py: the same pattern (lines 11-19).
analyze-trace.py: os.path.exists guard in main (lines 590-593) and
except Exception around json.load (lines 48-52).
plot_midi_timeline.py: a single try around pd.read_csv and json.load
whose only except clause is FileNotFoundError (lines 22-28), so a
malformed CSV raises ParserError and a malformed plan raises
JSONDecodeError through it. -/
def misuseOutcome : Misuse → ReadOutcome
  | .gestureSyncMissingFile => .printedError
  | .gestureSyncBadMidi => handleAt .exceptionAll .midoError
  | .csvConvMissingFile => .printedError
  | .csvConvBadMidi => handleAt .exceptionAll .midoError
  | .traceMissingFile => .printedError
  | .traceBadJson => handleAt .exceptionAll .jsonDecodeError
  | .plotMissingCsv => handleAt .fileNotFound .fileNotFound
  | .plotMissingPlan => handleAt .fileNotFound .fileNotFound
  | .plotBadCsv => handleAt .fileNotFound .parserError
  | .plotBadJson => handleAt .fileNotFound .jsonDecodeError

/-- Counterexample to claim C8: a malformed JSON gesture plan given to
plot_midi_timeline.py raises json.JSONDecodeError, which the script's only
except clause (FileNotFoundError) does not catch, so the exception
propagates unhandled to the process boundary instead of being converted
to a user-facing message. -/
theorem c8_boundary_handling_counterexample :
    misuseOutcome Misuse.plotBadJson
      = ReadOutcome.unhandled ExcClass.jsonDecodeError ∧
    misuseOutcome Misuse.plotBadJson ≠ ReadOutcome.printedError := by
  exact ⟨rfl, by decide⟩

/-- Claim C8 amended: every misused input is caught at its read boundary
and converted to a printed message, except in plot_midi_timeline.py where
only a missing file is caught; a malformed CSV or a malformed JSON plan
there escapes unhandled. -/
theorem c8_boundary_handling_amended :
    (∀ m : Misuse, m ≠ Misuse.plotBadCsv → m ≠ Misuse.plotBadJson →
      misuseOutcome m = ReadOutcome.printedError) ∧
    misuseOutcome Misuse.plotBadCsv
      = ReadOutcome.unhandled ExcClass.parserError ∧
    misuseOutcome Misuse.plotBadJson
      = ReadOutcome.unhandled ExcClass.jsonDecodeError := by
  refine ⟨?_, rfl, rfl⟩
  intro m h1 h2
  cases m <;> first | rfl | simp_all

/-- Witness for the amended claim C8 at the trace analyzer's malformed
JSON input, which is caught by its except Exception clause. -/
theorem c8_boundary_handling_amended_witness :
    (Misuse.traceBadJson ≠ Misuse.plotBadCsv ∧
     Misuse.traceBadJson ≠ Misuse.plotBadJson) ∧
    misuseOutcome Misuse.traceBadJson = ReadOutcome.printedError :=
  ⟨⟨by decide, by decide⟩,
   c8_boundary_handling_amended.1 Misuse.traceBadJson (by decide) (by decide)⟩

/-- Formats saved by generate_sync_graph (gesture_sync_analyzer.py lines
190-194) and by generate_plots (analyze-trace.py line 329): png and svg
when the requested format is both, else the single requested format. -/
def formats_to_save (graph_format : String) : List String :=
  if graph_format = "both" then ["png", "svg"] else [graph_format]

/-- A save loop with one try/except per file (gesture_sync_analyzer.py
lines 202-208, analyze-trace.py lines 330-336): every entry is attempted
and an entry is produced iff its own save does not fail; a failure only
prints a message and the loop continues. -/
def attemptSaves {α : Type} : List α → (α → Bool) → List α
  | [], _ => []
  | a :: rest, fails =>
    if fails a then attemptSaves rest fails
    else a :: attemptSaves rest fails

theorem attemptSaves_eq_filter {α : Type} (l : List α) (fails : α → Bool) :
    attemptSaves l fails = l.filter (fun a => !(fails a)) := by
  induction l with
  | nil => simp [attemptSaves]
  | cons a rest ih =>
    cases h : fails a <;> simp [attemptSaves, h, ih]

/-- Artifact outcome of analyze_synchronization's output phase. -/
structure SyncRunOutcome where
  graphFormatsAttempted : List String
  graphFormatsSaved : List String
  reportAttempted : Bool
  reportSaved : Bool
  deriving DecidableEq

/-- Output phase of analyze_synchronization, gesture_sync_analyzer.py
lines 530-549: the graph block and the report block sit in separate
try/excepts, so the report is attempted whenever requested regardless of
any graph failure, and within generate_sync_graph each format's savefig
has its own try/except. -/
def gestureSyncArtifacts (generate_graph generate_report : Bool)
    (graph_format : String) (saveFails : String → Bool)
    (reportWriteFails : Bool) : SyncRunOutcome :=
  ⟨if generate_graph then formats_to_save graph_format else [],
   if generate_graph then attemptSaves (formats_to_save graph_format) saveFails
   else [],
   generate_report,
   generate_report && !reportWriteFails⟩

/-- Figure names produced by generate_plots of analyze-trace.py lines
269-321: three always, frame_duration when durations exist. -/
def traceFigures (hasDurations : Bool) : List String :=
  if hasDurations then
    ["fps_timeline", "fps_distribution", "fps_buckets", "frame_duration"]
  else ["fps_timeline", "fps_distribution", "fps_buckets"]

/-- The files attempted by the nested save loop of generate_plots,
analyze-trace.py lines 330-336: every figure in every requested format. -/
def traceFileProducts (figures formats : List String) :
    List (String × String) :=
  match figures with
  | [] => []
  | f :: rest =>
    formats.map (fun fmt => (f, fmt)) ++ traceFileProducts rest formats

/-- Artifact outcome of main's output phase in analyze-trace.py. -/
structure TraceRunOutcome where
  plotFilesAttempted : List (String × String)
  plotFilesSaved : List (String × String)
  reportAttempted : Bool
  reportSaved : Bool
  exitCode : ℕ
  deriving DecidableEq

/-- Output phase of main in analyze-trace.py lines 605-637.  Every
fig.savefig sits in its own try/except inside generate_plots (lines
330-336), so a save failure never escapes to main's except clause and the
report phase runs whenever requested; a report write failure is caught by
main's second try/except, which prints and returns exit code 1. -/
def analyzeTraceArtifacts (noPlot genReport hasDurations : Bool)
    (output_format : String) (saveFails : String → String → Bool)
    (reportWriteFails : Bool) : TraceRunOutcome :=
  ⟨if noPlot then []
   else traceFileProducts (traceFigures hasDurations)
     (formats_to_save output_format),
   if noPlot then []
   else attemptSaves
     (traceFileProducts (traceFigures hasDurations)
       (formats_to_save output_format))
     (fun p => saveFails p.1 p.2),
   genReport,
   genReport && !reportWriteFails,
   if genReport && reportWriteFails then 1 else 0⟩

/-- Claim C9: when a script produces several output artifacts, a write
failure of one artifact is caught per-artifact and does not prevent the
generation of the remaining artifacts: in both orchestrators the report is
attempted whenever requested independent of graph save failures, the saved
graph files are exactly the attempted ones whose own save does not fail,
and concretely under format both with png failing, svg is still saved. -/
theorem c9_per_artifact_write_isolation (gg gr : Bool) (gfmt : String)
    (sf : String → Bool) (rwf : Bool) (noPlot genReport hd : Bool)
    (ofmt : String) (sf2 : String → String → Bool) (rwf2 : Bool) :
    ((gestureSyncArtifacts gg gr gfmt sf rwf).reportAttempted = gr ∧
     (gestureSyncArtifacts gg gr gfmt sf rwf).graphFormatsSaved
       = (gestureSyncArtifacts gg gr gfmt sf rwf).graphFormatsAttempted.filter
           (fun f => !(sf f)) ∧
     (analyzeTraceArtifacts noPlot genReport hd ofmt sf2 rwf2).reportAttempted
       = genReport ∧
     (analyzeTraceArtifacts noPlot genReport hd ofmt sf2 rwf2).plotFilesSaved
       = ((analyzeTraceArtifacts noPlot genReport hd ofmt
           sf2 rwf2).plotFilesAttempted).filter
           (fun p => !(sf2 p.1 p.2))) ∧
    (gestureSyncArtifacts true true "both" (fun f => f == "png")
        false).graphFormatsSaved = ["svg"] := by
  refine ⟨⟨rfl, ?_, rfl, ?_⟩, ?_⟩
  · cases gg <;> simp [gestureSyncArtifacts, attemptSaves_eq_filter]
  · cases noPlot <;> simp [analyzeTraceArtifacts, attemptSaves_eq_filter]
  · rfl

end WebTheremin
